import Mathlib

/-!
Verification of the Pyrogram `ErrorHandler` shim
(`src/pyrogram/handlers/error_handler.py`).

The module installs two interception points:
 - it wraps the event loop's `run_in_executor` primitive (class-wide when
   `catch_all` is true, on the owning client's loop only when false), and
 - it replaces the process-wide `sys.excepthook` with a closure binding the
   `catch_all` flag.

The embedding below mirrors the source control flow as pure trace-producing
functions.  Exceptions are modelled as records carrying the data the code
actually inspects: the class name, the class `__module__` attribute (optional,
because the code uses `getattr(..., '__module__', '')`), a traceback token,
and the outcomes of the two `isinstance` tests the code performs
(`errors.FloodWait` and `errors.RPCError`).  The user callback is modelled as
a function returning `none` when it returns normally and `some e` when it
raises `e`.  Python's `sys.exc_info()` inside an `except` block yields the
triple of the exception currently being handled, which inside the
`except BaseException:` blocks of `except_hook` is the callback's own
exception; `sysExcInfo` models that triple.
-/

namespace PyErrorHandler

/-- A client, identified by its event loop (`client.loop`). -/
structure Client where
  loopId : Nat
deriving DecidableEq, Repr

/-- A Python exception instance, reduced to the data the handler inspects:
class name, the class `__module__` attribute (absent modelled as `none`),
a traceback token, and the results of the two `isinstance` checks the code
performs (`errors.FloodWait`, `errors.RPCError`). -/
structure Exc where
  cls : String
  module : Option String
  tb : String
  isFloodWait : Bool
  isRPCError : Bool
deriving DecidableEq, Repr

/-- The `(type, value, traceback)` triple passed to `sys.excepthook`;
`val` is `args[1]` in the source. -/
structure HookArgs where
  ty : String
  val : Exc
  tb : String
deriving DecidableEq, Repr

/-- The `*args, **kwargs` a wrapped `run_in_executor` call receives
(the unit of work plus its arguments). -/
structure Args where
  argv : List String
  kw : List (String × String)
deriving DecidableEq, Repr

/-- Outcome of a Python call: a normal return or a raised exception. -/
inductive PyResult (α : Type) where
  | ok : α → PyResult α
  | exn : Exc → PyResult α
deriving DecidableEq, Repr

/-- Instance state of an `ErrorHandler`: the owning client, the `catch_all`
flag, and the user callback.  The callback receives `(client, exception)`;
its model returns `some e` when the callback itself raises `e` and `none`
when it returns normally.  `id` identifies the instance so that installed
hooks can be told apart in the process state. -/
structure ErrorHandler where
  id : Nat
  client : Client
  catchAll : Bool
  callback : Client → Exc → Option Exc

/-- The two exception-class matchers the constructor can put into
`self.exceptions_to_catch`. -/
inductive CatchKind where
  | rpcError
  | baseException
deriving DecidableEq, Repr

/-- `self.exceptions_to_catch` as built by `__init__`: `[errors.RPCError]`,
with `BaseException` appended when `catch_all` is true. -/
def ErrorHandler.exceptionsToCatch (h : ErrorHandler) : List CatchKind :=
  [CatchKind.rpcError] ++ (if h.catchAll then [CatchKind.baseException] else [])

/-- Python `isinstance` against one matcher: every exception is a
`BaseException`. -/
def isinstanceOf (e : Exc) : CatchKind → Bool
  | CatchKind.rpcError => e.isRPCError
  | CatchKind.baseException => true

/-- Whether `except self.exceptions_to_catch` catches `e`: `isinstance`
against any member of the tuple. -/
def matchesTuple (h : ErrorHandler) (e : Exc) : Bool :=
  h.exceptionsToCatch.any (isinstanceOf e)

/-- Observable effects of one wrapped `run_in_executor` call:
the calls made to the saved original primitive (loop id passed plus the
forwarded arguments), the callback invocations with their `(client, exc)`
arguments, any calls to the saved original excepthook (the dispatch path
never makes one), and the overall outcome (`ok (some v)` for `return result`,
`ok none` for the implicit `return None` after the callback, `exn e` for a
propagating exception). -/
structure ExecOutcome (α : Type) where
  origCalls : List (Nat × Args)
  callbackCalls : List (Client × Exc)
  origHookCalls : List HookArgs
  result : PyResult (Option α)
deriving DecidableEq, Repr

/-- `ErrorHandler.run_in_executor`.  `orig` is the outcome of awaiting
`ErrorHandler.original_run_in_executor(self.client.loop, *args, **kwargs)`.
Control flow of the source: `except errors.FloodWait: raise`, then
`except self.exceptions_to_catch as exc: self.callback(self.client, exc)`
(a raise from the callback is not caught), `else: return result`. -/
def ErrorHandler.run_in_executor {α : Type} (h : ErrorHandler) (args : Args)
    (orig : PyResult α) : ExecOutcome α :=
  match orig with
  | PyResult.ok v =>
      ⟨[(h.client.loopId, args)], [], [], PyResult.ok (some v)⟩
  | PyResult.exn e =>
      if e.isFloodWait then
        ⟨[(h.client.loopId, args)], [], [], PyResult.exn e⟩
      else if matchesTuple h e then
        match h.callback h.client e with
        | none => ⟨[(h.client.loopId, args)], [(h.client, e)], [], PyResult.ok none⟩
        | some e2 => ⟨[(h.client.loopId, args)], [(h.client, e)], [], PyResult.exn e2⟩
      else
        ⟨[(h.client.loopId, args)], [], [], PyResult.exn e⟩

/-- Whether `needle` occurs at the start of `hay`. -/
def listStartsWith : List Char → List Char → Bool
  | [], _ => true
  | _ :: _, [] => false
  | a :: as, b :: bs => (a == b) && listStartsWith as bs

/-- Whether `needle` occurs contiguously anywhere inside `hay`. -/
def listContains : List Char → List Char → Bool
  | n, [] => n.isEmpty
  | n, b :: bs => listStartsWith n (b :: bs) || listContains n bs

/-- Substring containment, Python's `needle in s` on strings. -/
def strContains (needle s : String) : Bool :=
  listContains needle.data s.data

/-- `getattr(args[1], '__module__', '')`: the class module name, defaulting
to the empty string when the attribute is absent. -/
def getattrModuleOrEmpty (e : Exc) : String :=
  e.module.getD ""

/-- The test guarding the callback in the `catch_all=False` hook branch:
`'pyrogram.errors' in getattr(args[1], '__module__', '')`. -/
def isProtocolOrigin (e : Exc) : Bool :=
  strContains "pyrogram.errors" (getattrModuleOrEmpty e)

/-- Observable effects of one `except_hook` call: callback invocations,
calls to the saved original excepthook with their argument triples, and the
exception propagating out of the hook, if any. -/
structure HookTrace where
  callbackCalls : List (Client × Exc)
  origHookCalls : List HookArgs
  raises : Option Exc
deriving DecidableEq, Repr

/-- `sys.exc_info()` evaluated inside an `except` block that is handling
exception `e`: the triple `(type(e), e, e.__traceback__)`. -/
def sysExcInfo (e : Exc) : HookArgs :=
  ⟨e.cls, e, e.tb⟩

/-- `ErrorHandler.except_hook`.  `catch_all` is the flag bound by
`functools.partial` at construction; `args` is the `(type, value, traceback)`
triple the process passes to `sys.excepthook`.  In both callback branches a
raise from the callback is caught by `except BaseException` and the saved
original hook is called with `*sys.exc_info()`, i.e. with the callback's own
exception triple. -/
def ErrorHandler.except_hook (h : ErrorHandler) (catch_all : Bool)
    (args : HookArgs) : HookTrace :=
  if catch_all then
    match h.callback h.client args.val with
    | none => ⟨[(h.client, args.val)], [], none⟩
    | some e2 => ⟨[(h.client, args.val)], [sysExcInfo e2], none⟩
  else
    if isProtocolOrigin args.val then
      match h.callback h.client args.val with
      | none => ⟨[(h.client, args.val)], [], none⟩
      | some e2 => ⟨[(h.client, args.val)], [sysExcInfo e2], none⟩
    else
      ⟨[], [args], none⟩

/-- What currently occupies the process-wide `sys.excepthook` slot: the
original handler saved at class-definition time, or some instance's
`functools.partial(self.except_hook, flag)`. -/
inductive HookSlot where
  | original
  | handlerHook (id : Nat) (catchAll : Bool)
deriving DecidableEq, Repr

/-- What currently occupies a `run_in_executor` slot: the original primitive
or some instance's wrapper. -/
inductive ExecSlot where
  | original
  | handlerExec (id : Nat)
deriving DecidableEq, Repr

/-- Process-wide mutable state touched by `__init__`: the `sys.excepthook`
slot, the class-wide `asyncio.BaseEventLoop.run_in_executor` attribute, and
per-loop instance-attribute overrides (loop id paired with the overriding
handler id, most recent first). -/
structure ProcState where
  excepthook : HookSlot
  classRunInExecutor : ExecSlot
  loopOverrides : List (Nat × Nat)
deriving DecidableEq, Repr

/-- Global side effects of `ErrorHandler.__init__` for the already-built
instance `h`: with `catch_all` true it patches the class-wide executor
primitive and installs the hook bound to `True`; otherwise it overrides only
the owning client loop's primitive and installs the hook bound to `False`.
The previous contents of the slots are ignored. -/
def ErrorHandler.init (s : ProcState) (h : ErrorHandler) : ProcState :=
  if h.catchAll then
    { excepthook := HookSlot.handlerHook h.id true
      classRunInExecutor := ExecSlot.handlerExec h.id
      loopOverrides := s.loopOverrides }
  else
    { excepthook := HookSlot.handlerHook h.id false
      classRunInExecutor := s.classRunInExecutor
      loopOverrides := (h.client.loopId, h.id) :: s.loopOverrides }

/-! Concrete instances used by counterexamples and witnesses. -/

/-- A concrete client. -/
def cl0 : Client := ⟨7⟩

/-- A plain builtin exception (not a protocol error). -/
def excValue : Exc := ⟨"ValueError", some "builtins", "tbOrig", false, false⟩

/-- An exception raised by a user callback. -/
def excCb : Exc := ⟨"TypeError", some "builtins", "tbCb", false, false⟩

/-- A FloodWait: instance of both `errors.FloodWait` and `errors.RPCError`. -/
def excFlood : Exc :=
  ⟨"FloodWait", some "pyrogram.errors.exceptions.flood_420", "tbFlood", true, true⟩

/-- A BadRequest protocol error: an `RPCError` that is not a `FloodWait`. -/
def excBad : Exc :=
  ⟨"BadRequest", some "pyrogram.errors.exceptions.bad_request_400", "tbBad", false, true⟩

/-- An exception whose class module merely contains the substring
`pyrogram.errors` without being that module. -/
def excWeird : Exc :=
  ⟨"Weird", some "myapp.pyrogram.errors_clone.custom", "tbWeird", false, false⟩

/-- An exception whose class lacks a `__module__` attribute. -/
def excNoMod : Exc := ⟨"NoMod", none, "tbNoMod", false, false⟩

/-- A callback that always raises `excCb`. -/
def cbRaise : Client → Exc → Option Exc := fun _ _ => some excCb

/-- A callback that always returns normally. -/
def cbOk : Client → Exc → Option Exc := fun _ _ => none

/-- Handler built with `catch_all=True` whose callback raises. -/
def hTrue : ErrorHandler := ⟨1, cl0, true, cbRaise⟩

/-- Handler built with `catch_all=False` whose callback returns normally. -/
def hFalseOk : ErrorHandler := ⟨2, cl0, false, cbOk⟩

/-- Handler built with `catch_all=True` whose callback returns normally. -/
def hTrueOk : ErrorHandler := ⟨3, cl0, true, cbOk⟩

/-- Hook args for the plain builtin exception. -/
def argsValue : HookArgs := ⟨"ValueError", excValue, "tbOrig"⟩

/-- Hook args for the BadRequest protocol error. -/
def argsBad : HookArgs := ⟨"BadRequest", excBad, "tbBad"⟩

/-- Hook args for the exception without a `__module__` attribute. -/
def argsNoMod : HookArgs := ⟨"NoMod", excNoMod, "tbNoMod"⟩

/-- Hook args for the substring-containment exception. -/
def argsWeird : HookArgs := ⟨"Weird", excWeird, "tbWeird"⟩

/-- Concrete executor arguments. -/
def args0 : Args := ⟨["work", "x"], [("timeout", "3")]⟩

/-! Helper lemmas shared by several results. -/

/-- When the callback branch of `except_hook` is reached (flag `True`, or
flag `False` with a protocol-origin exception), the hook behaves as the
common try/except-around-the-callback block. -/
theorem except_hook_callback_branch (h : ErrorHandler) (ca : Bool)
    (args : HookArgs) (hin : ca = true ∨ isProtocolOrigin args.val = true) :
    h.except_hook ca args =
      (match h.callback h.client args.val with
       | none => ⟨[(h.client, args.val)], [], none⟩
       | some e2 => ⟨[(h.client, args.val)], [sysExcInfo e2], none⟩) := by
  unfold ErrorHandler.except_hook
  rcases hin with hca | hp
  · subst hca
    rfl
  · cases ca
    · simp [hp]
    · rfl

/-- On the callback branch of `except_hook`, the callback is invoked exactly
once with `(client, args.val)`, whether or not it raises. -/
theorem except_hook_callback_called (h : ErrorHandler) (ca : Bool)
    (args : HookArgs) (hin : ca = true ∨ isProtocolOrigin args.val = true) :
    (h.except_hook ca args).callbackCalls = [(h.client, args.val)] := by
  have hb := except_hook_callback_branch h ca args hin
  cases hc : h.callback h.client args.val <;> rw [hc] at hb <;> rw [hb]

/-- With the flag bound to `False` and a non-protocol-origin exception, the
hook only forwards its arguments to the saved original excepthook. -/
theorem except_hook_false_fallthrough (h : ErrorHandler) (args : HookArgs)
    (hp : isProtocolOrigin args.val = false) :
    h.except_hook false args = ⟨[], [args], none⟩ := by
  unfold ErrorHandler.except_hook
  simp [hp]

/-- With the flag bound to `False`, the callback runs iff the module-name
test succeeds. -/
theorem except_hook_false_callback_iff (h : ErrorHandler) (args : HookArgs) :
    (h.except_hook false args).callbackCalls ≠ []
      ↔ isProtocolOrigin args.val = true := by
  cases hp : isProtocolOrigin args.val
  · rw [except_hook_false_fallthrough h args hp]
    simp
  · rw [except_hook_callback_called h false args (Or.inr hp)]
    simp

/-- An exception without a `__module__` attribute fails the module-name
test: the `getattr` default is the empty string. -/
theorem isProtocolOrigin_none (e : Exc) (hm : e.module = none) :
    isProtocolOrigin e = false := by
  unfold isProtocolOrigin getattrModuleOrEmpty
  rw [hm]
  rfl

/-! Results for the individual claims. -/

/-- Claim C1, counterexample to the claim as stated: with `catch_all=True`,
a plain exception and a callback that raises `excCb`, the original hook is
invoked — but with the callback exception's info (from `sys.exc_info()`
inside the `except` block), which differs from the original triggering
exception's info that the hook received; the callback's exception IS passed
to the original handler, contradicting both parts of the claim. -/
theorem C1_counterexample :
    (hTrue.except_hook true argsValue).callbackCalls = [(cl0, excValue)]
    ∧ (hTrue.except_hook true argsValue).origHookCalls = [sysExcInfo excCb]
    ∧ sysExcInfo excCb ≠ argsValue := by
  refine ⟨rfl, rfl, ?_⟩
  decide

/-- Claim C1 (amended): whenever the callback is invoked by the fallback
hook and itself raises `e2`, the hook suppresses `e2` (nothing propagates)
and invokes the originally-saved fallback handler once — with the info of
the callback's own exception `e2`, not with the original triggering
exception's info; the original `args` triple is discarded. -/
theorem C1_amended_callback_exc_info (h : ErrorHandler) (ca : Bool)
    (args : HookArgs) (e2 : Exc)
    (hcb : h.callback h.client args.val = some e2)
    (hin : ca = true ∨ isProtocolOrigin args.val = true) :
    (h.except_hook ca args).callbackCalls = [(h.client, args.val)]
    ∧ (h.except_hook ca args).origHookCalls = [sysExcInfo e2]
    ∧ (h.except_hook ca args).raises = none := by
  have hb := except_hook_callback_branch h ca args hin
  rw [hcb] at hb
  rw [hb]
  exact ⟨rfl, rfl, rfl⟩

/-- Witness for the amended C1 at a concrete input. -/
theorem C1_amended_callback_exc_info_witness :
    hTrue.callback hTrue.client argsValue.val = some excCb
    ∧ ((hTrue.except_hook true argsValue).callbackCalls
          = [(hTrue.client, argsValue.val)]
       ∧ (hTrue.except_hook true argsValue).origHookCalls = [sysExcInfo excCb]
       ∧ (hTrue.except_hook true argsValue).raises = none) :=
  ⟨rfl, C1_amended_callback_exc_info hTrue true argsValue excCb rfl (Or.inl rfl)⟩

/-- Claim C2: every wrapped `run_in_executor` invocation — under either the
class-wide `catch_all=True` patch or the per-client `catch_all=False` patch,
and whatever the outcome of the underlying call — invokes the saved original
primitive exactly once, forwarding exactly the arguments the wrapper
received (prepending the owning client's loop), before any match logic
consumes the outcome. -/
theorem C2_original_called_once {α : Type} (h : ErrorHandler) (args : Args)
    (orig : PyResult α) :
    (h.run_in_executor args orig).origCalls = [(h.client.loopId, args)] := by
  cases orig with
  | ok v => rfl
  | exn e =>
    unfold ErrorHandler.run_in_executor
    by_cases hf : e.isFloodWait = true
    · simp [hf]
    · by_cases hm : matchesTuple h e = true
      · cases hc : h.callback h.client e <;> simp [hf, hm, hc]
      · simp [hf, hm]

/-- Claim C3: when the underlying primitive raises a `FloodWait`, the
wrapped dispatch re-raises it unchanged and never invokes the callback,
whatever the `catch_all` configuration of the handler. -/
theorem C3_floodwait_reraised {α : Type} (h : ErrorHandler) (args : Args)
    (e : Exc) (hf : e.isFloodWait = true) :
    h.run_in_executor args (PyResult.exn e) =
      (⟨[(h.client.loopId, args)], [], [], PyResult.exn e⟩ : ExecOutcome α) := by
  unfold ErrorHandler.run_in_executor
  simp [hf]

/-- Witness for C3, at both a `catch_all=True` and a `catch_all=False`
handler. -/
theorem C3_floodwait_reraised_witness :
    excFlood.isFloodWait = true
    ∧ hTrue.run_in_executor args0 (PyResult.exn excFlood) =
        (⟨[(cl0.loopId, args0)], [], [], PyResult.exn excFlood⟩ : ExecOutcome Nat)
    ∧ hFalseOk.run_in_executor args0 (PyResult.exn excFlood) =
        (⟨[(cl0.loopId, args0)], [], [], PyResult.exn excFlood⟩ : ExecOutcome Nat) :=
  ⟨rfl, C3_floodwait_reraised hTrue args0 excFlood rfl,
    C3_floodwait_reraised hFalseOk args0 excFlood rfl⟩

/-- Claim C4: when the underlying primitive raises a non-`FloodWait`
exception matched by `self.exceptions_to_catch` and the callback returns
normally, the callback is invoked exactly once with `(client, exception)`,
the exception is swallowed, and the wrapped call returns no value
(Python's implicit `None`). -/
theorem C4_matched_exception_swallowed {α : Type} (h : ErrorHandler)
    (args : Args) (e : Exc) (hf : e.isFloodWait = false)
    (hm : matchesTuple h e = true) (hcb : h.callback h.client e = none) :
    h.run_in_executor args (PyResult.exn e) =
      (⟨[(h.client.loopId, args)], [(h.client, e)], [],
        PyResult.ok none⟩ : ExecOutcome α) := by
  unfold ErrorHandler.run_in_executor
  simp [hf, hm, hcb]

/-- Witness for C4: a `BadRequest` under a `catch_all=False` handler. -/
theorem C4_matched_exception_swallowed_witness :
    excBad.isFloodWait = false
    ∧ matchesTuple hFalseOk excBad = true
    ∧ hFalseOk.callback hFalseOk.client excBad = none
    ∧ hFalseOk.run_in_executor args0 (PyResult.exn excBad) =
        (⟨[(cl0.loopId, args0)], [(cl0, excBad)], [],
          PyResult.ok none⟩ : ExecOutcome Nat) :=
  ⟨rfl, rfl, rfl, C4_matched_exception_swallowed hFalseOk args0 excBad rfl rfl rfl⟩

/-- Claim C5: when the underlying primitive succeeds, the wrapped dispatch
returns its result unchanged and never invokes the callback. -/
theorem C5_success_passthrough {α : Type} (h : ErrorHandler) (args : Args)
    (v : α) :
    h.run_in_executor args (PyResult.ok v) =
      ⟨[(h.client.loopId, args)], [], [], PyResult.ok (some v)⟩ := rfl

/-- Claim C6: with the hook flag bound to `False`, the callback is invoked
iff the exception's class module passes the protocol-origin test; every
other exception is forwarded to the originally-saved handler with exactly
the argument triple the hook received. -/
theorem C6_hook_false_protocol_iff (h : ErrorHandler) (args : HookArgs) :
    ((h.except_hook false args).callbackCalls ≠ []
      ↔ isProtocolOrigin args.val = true)
    ∧ (isProtocolOrigin args.val = false →
        h.except_hook false args = ⟨[], [args], none⟩) :=
  ⟨except_hook_false_callback_iff h args, except_hook_false_fallthrough h args⟩

/-- Witness for C6: a protocol error triggers the callback; a builtin
exception falls through with identical arguments. -/
theorem C6_hook_false_protocol_iff_witness :
    isProtocolOrigin argsBad.val = true
    ∧ (hFalseOk.except_hook false argsBad).callbackCalls ≠ []
    ∧ isProtocolOrigin argsValue.val = false
    ∧ hFalseOk.except_hook false argsValue = ⟨[], [argsValue], none⟩ := by
  refine ⟨by decide, ?_, by decide, ?_⟩
  · exact (C6_hook_false_protocol_iff hFalseOk argsBad).1.mpr (by decide)
  · exact (C6_hook_false_protocol_iff hFalseOk argsValue).2 (by decide)

/-- Claim C7: with the hook flag bound to `True`, the callback is invoked
unconditionally, once, with `(client, exception)`, for every delivered
exception. -/
theorem C7_hook_true_always_calls (h : ErrorHandler) (args : HookArgs) :
    (h.except_hook true args).callbackCalls = [(h.client, args.val)] :=
  except_hook_callback_called h true args (Or.inl rfl)

/-- Claim C8: `__init__` unconditionally overwrites the process-wide
excepthook slot with this instance's hook (bound to its own flag), whatever
the slot held before; constructing a second handler silently replaces the
first installation — last writer wins. -/
theorem C8_init_overwrites_excepthook (s : ProcState) (h1 h2 : ErrorHandler) :
    (ErrorHandler.init s h2).excepthook = HookSlot.handlerHook h2.id h2.catchAll
    ∧ (ErrorHandler.init (ErrorHandler.init s h1) h2).excepthook =
        HookSlot.handlerHook h2.id h2.catchAll := by
  have key : ∀ t : ProcState,
      (ErrorHandler.init t h2).excepthook
        = HookSlot.handlerHook h2.id h2.catchAll := by
    intro t
    unfold ErrorHandler.init
    cases hc : h2.catchAll <;> simp [hc]
  exact ⟨key s, key (ErrorHandler.init s h1)⟩

/-- Claim C9: on the dispatch path, a raise from the callback while handling
a matched exception is NOT suppressed: it propagates out of the wrapped
call, and the originally-saved fallback handler is never invoked there. -/
theorem C9_dispatch_callback_raise_propagates {α : Type} (h : ErrorHandler)
    (args : Args) (e e2 : Exc) (hf : e.isFloodWait = false)
    (hm : matchesTuple h e = true)
    (hcb : h.callback h.client e = some e2) :
    h.run_in_executor args (PyResult.exn e) =
      (⟨[(h.client.loopId, args)], [(h.client, e)], [],
        PyResult.exn e2⟩ : ExecOutcome α) := by
  unfold ErrorHandler.run_in_executor
  simp [hf, hm, hcb]

/-- Witness for C9: a `catch_all=True` handler whose callback raises. -/
theorem C9_dispatch_callback_raise_propagates_witness :
    excValue.isFloodWait = false
    ∧ matchesTuple hTrue excValue = true
    ∧ hTrue.callback hTrue.client excValue = some excCb
    ∧ hTrue.run_in_executor args0 (PyResult.exn excValue) =
        (⟨[(cl0.loopId, args0)], [(cl0, excValue)], [],
          PyResult.exn excCb⟩ : ExecOutcome Nat) :=
  ⟨rfl, rfl, rfl,
    C9_dispatch_callback_raise_propagates hTrue args0 excValue excCb rfl rfl rfl⟩

/-- Claim C10: in the `catch_all=False` hook, the protocol-origin test is
substring containment of the literal `pyrogram.errors` in the class module
name obtained with an empty-string `getattr` default; the callback runs iff
that substring test succeeds, and an exception whose class lacks the
attribute never triggers the callback — the hook falls through to the
original handler without raising. -/
theorem C10_module_substring_semantics (h : ErrorHandler) (args : HookArgs) :
    ((h.except_hook false args).callbackCalls ≠ []
      ↔ strContains "pyrogram.errors" (args.val.module.getD "") = true)
    ∧ (args.val.module = none →
        h.except_hook false args = ⟨[], [args], none⟩) := by
  constructor
  · exact except_hook_false_callback_iff h args
  · intro hm
    exact except_hook_false_fallthrough h args (isProtocolOrigin_none args.val hm)

/-- Witness for C10: a class module that merely CONTAINS the substring
(without equalling it) still triggers the callback, and a class without a
`__module__` attribute falls through untouched. -/
theorem C10_module_substring_semantics_witness :
    strContains "pyrogram.errors" (excWeird.module.getD "") = true
    ∧ excWeird.module.getD "" ≠ "pyrogram.errors"
    ∧ (hFalseOk.except_hook false argsWeird).callbackCalls ≠ []
    ∧ argsNoMod.val.module = none
    ∧ hFalseOk.except_hook false argsNoMod = ⟨[], [argsNoMod], none⟩ := by
  refine ⟨by decide, by decide, ?_, rfl, ?_⟩
  · exact (C10_module_substring_semantics hFalseOk argsWeird).1.mpr (by decide)
  · exact (C10_module_substring_semantics hFalseOk argsNoMod).2 rfl

end PyErrorHandler
